import Mathlib

/-!
Verification of the deterministic data pipeline of the `acc_agent` repository:
chart-of-accounts parsing and indexing, transaction chunking, the
classification-oracle adapter with its validation/repair step, the
line-oriented session store, the user-correction update pass, the confidence
classifier, the journal-entry generator, and the parallel chunk executor.

Each Lean definition is a shallow embedding of the corresponding Python
function, translated statement by statement.  Monetary amounts and confidence
scores are modelled by `ℚ` (the Python code uses floats; every constant the
code compares against — 0.9, 0.7, 0.0, 0.01 — is exactly representable, and
the sums proved about are order-identical, so `ℚ` is faithful for the
properties at stake).  Python strings are `String`; where the code does
character-level work (`strip`, `split`, substring search) we work on
`List Char` via `String.data`.  A Python value that may be absent
(`dict.get` with no default) or non-string is an `Option`.
-/

namespace AccAgent

/-! ### Python string primitives (`str.strip`, `sep in s`, `s.split(sep, 1)`)

`pyWhitespace` covers the ASCII whitespace characters stripped by Python's
`str.strip()`; the chart and code inputs at stake are ASCII text. -/

def pyWhitespace (c : Char) : Bool :=
  c = ' ' || c = '\t' || c = '\n' || c = '\r' || c = '\x0b' || c = '\x0c'

/-- `str.strip()` on a character list. -/
def stripL (s : List Char) : List Char :=
  ((s.dropWhile pyWhitespace).reverse.dropWhile pyWhitespace).reverse

/-- `str.strip()` on a `String`. -/
def stripS (s : String) : String :=
  ⟨stripL s.data⟩

/-- Split at the first occurrence of `sep`:
`some (before, after)` when `sep` occurs in `s` (Python `s.split(sep, 1)`),
`none` when it does not (Python `sep in s` is false). -/
def splitAtFirstSep (sep : List Char) : List Char → Option (List Char × List Char)
  | [] => none
  | c :: rest =>
    if sep.isPrefixOf (c :: rest) then
      some ([], (c :: rest).drop sep.length)
    else
      match splitAtFirstSep sep rest with
      | some (l, r) => some (c :: l, r)
      | none => none

/-! ### Data model (§3 of the spec) -/

/-- A bank transaction after ingestion (`transaction_id` assigned as
`trans_<index>`); `amount` is the parsed decimal amount. -/
structure Transaction where
  transaction_id : String
  date : String
  description : String
  amount : ℚ
deriving DecidableEq

/-- A categorized transaction record as written to the session ledger.
`updated_by`/`updated_at` are absent (`none`) until a user correction sets
them; `category` is likewise only present after an update writes it. -/
structure CatTrans where
  transaction_id : String
  date : String
  description : String
  amount : ℚ
  account_code : String
  account_name : String
  confidence : ℚ
  reasoning : String
  category : Option String := none
  updated_by : Option String := none
  updated_at : Option String := none
deriving DecidableEq

/-! ### Chart-of-Accounts parsing
(`read_chart_of_accounts`, categorizer initialization tools) -/

/-- One line of the chart file, embedded from the body of the `for` loop of
`read_chart_of_accounts`: strip the line; skip it when empty or when it
starts with `#`; otherwise split on the first `": "`, or failing that the
first `" - "`; a line with a separator always splits into exactly two parts
(Python `split(sep, 1)`), which are stripped and become the account;
a line with no separator yields `parts = []` and is skipped. -/
def parseChartLine (raw : List Char) : Option (List Char × List Char) :=
  let line := stripL raw
  if line = [] then none
  else if line.head? = some '#' then none
  else
    match splitAtFirstSep ": ".data line with
    | some (a, b) => some (stripL a, stripL b)
    | none =>
      match splitAtFirstSep " - ".data line with
      | some (a, b) => some (stripL a, stripL b)
      | none => none

/-- `read_chart_of_accounts` on the list of raw lines of the file. -/
def read_chart_of_accounts (lines : List (List Char)) : List (List Char × List Char) :=
  lines.filterMap parseChartLine

/-! ### Chart-of-Accounts index (`preprocess_chart_of_accounts`) -/

/-- Python `dict` lookup over an association list built by repeated
assignment: the *last* binding for a key wins. -/
def dgetLast (l : List (String × String)) (key : String) : Option String :=
  match l with
  | [] => none
  | (k, v) :: rest =>
    match dgetLast rest key with
    | some r => some r
    | none => if k = key then some v else none

/-- The slice of `preprocess_chart_of_accounts` the claims depend on:
for each parsed account, strip code and name, record the
`code → name` binding and add the code to `valid_codes`.
(Membership in the Python `set` is membership in this list.) -/
def preprocessCOA (accounts : List (List Char × List Char)) :
    List (String × String) × List String :=
  let entries := accounts.map fun a => (String.mk (stripL a.1), String.mk (stripL a.2))
  (entries, entries.map Prod.fst)

/-- `valid_codes` built by `preprocess_chart_of_accounts`. -/
def valid_codes_of (accounts : List (List Char × List Char)) : List String :=
  (preprocessCOA accounts).2

/-! ### Chunker (`initialize_session_and_output_file`, lines 259-267) -/

def CHUNK_SIZE : Nat := 26

structure Chunk (α : Type) where
  chunk_number : Nat
  transactions : List α
  start_index : Nat
  end_index : Nat
deriving DecidableEq

/-- The chunking loop `for i in range(0, len(transactions), CHUNK_SIZE)`:
`rest` is `transactions[i:]`, `total` the original length, `num` the
1-based number of the next chunk (`len(chunks) + 1`). -/
def makeChunksAux (total : Nat) : List α → Nat → Nat → List (Chunk α)
  | [], _, _ => []
  | t :: rest, i, num =>
    { chunk_number := num
      transactions := (t :: rest).take CHUNK_SIZE
      start_index := i
      end_index := min (i + CHUNK_SIZE) total } ::
    makeChunksAux total ((t :: rest).drop CHUNK_SIZE) (i + CHUNK_SIZE) (num + 1)
termination_by l => l.length
decreasing_by simp [List.length_drop, CHUNK_SIZE]; omega

/-- The chunker: partition the transaction list into chunks of `CHUNK_SIZE`. -/
def makeChunks (ts : List α) : List (Chunk α) :=
  makeChunksAux ts.length ts 0 1

/-! ### Code Validator/Repairer (`validate_account_code`,
parallel_processing tools, lines 13-41)

The `account_code` argument is `cat.get('account_code')`: `none` models a
missing key or a non-string value (Python `not account_code or not
isinstance(account_code, str)` also catches the empty string, modelled by
`some ""`). -/

structure ValidatedAccount where
  account_code : String
  account_name : String
  validation_note : Option String
deriving DecidableEq

def validate_account_code (account_code : Option String)
    (valid_codes : List String) (code_to_name : List (String × String)) :
    ValidatedAccount :=
  match account_code with
  | none =>
    { account_code := "6900"
      account_name := (dgetLast code_to_name "6900").getD "Other Expenses"
      validation_note := some "Empty or invalid account code provided" }
  | some s =>
    if s = "" then
      { account_code := "6900"
        account_name := (dgetLast code_to_name "6900").getD "Other Expenses"
        validation_note := some "Empty or invalid account code provided" }
    else
      let clean_code := stripS s
      if valid_codes.contains clean_code then
        { account_code := clean_code
          account_name := (dgetLast code_to_name clean_code).getD ""
          validation_note := none }
      else
        { account_code := "6900"
          account_name := (dgetLast code_to_name "6900").getD "Other Expenses"
          validation_note := some ("Account code " ++ clean_code ++
            " not found in Chart of Accounts. Defaulted to Other Expenses.") }

/-! ### Classification Oracle Adapter (`categorize_single_chunk_sync`,
parallel_processing tools)

The oracle's textual response is external; what the adapter observes is the
outcome of `json.loads` after code-fence stripping: `none` for a
`JSONDecodeError`, `some arr` for a parsed array.  Each array element is a
dict read only through `.get`, so every field is an `Option`. -/

structure OracleCat where
  transaction_id : Option String := none
  account_code : Option String := none
  account_name : Option String := none
  confidence : Option ℚ := none
  reasoning : Option String := none
deriving DecidableEq

/-- The parse-failure fallback synthesized for one transaction
(lines 156-163): `account_code="6900"`, name from the index
(default `"Other Expenses"`), `confidence=0.3`. -/
def jsonFailFallback (code_to_name : List (String × String)) (t : Transaction) :
    OracleCat :=
  { transaction_id := some t.transaction_id
    account_code := some "6900"
    account_name := some ((dgetLast code_to_name "6900").getD "Other Expenses")
    confidence := some (3/10)
    reasoning := some "JSON parsing failed, using fallback categorization" }

/-- The missing-result fallback used when the parsed array is shorter than
the chunk (lines 170-175). -/
def missingFallback (code_to_name : List (String × String)) : OracleCat :=
  { account_code := some "6900"
    account_name := some ((dgetLast code_to_name "6900").getD "Other Expenses")
    confidence := some (3/10)
    reasoning := some "Missing categorization result" }

/-- The adapter stage (lines 150-175): the per-index categorization record
the merge loop consumes for transaction `i` of the chunk — the parsed
array's element when the parse succeeded and the array is long enough,
one of the two fallbacks otherwise. -/
def adapterCats (parsed : Option (List OracleCat)) (chunk : List Transaction)
    (code_to_name : List (String × String)) : List OracleCat :=
  let categorizations :=
    match parsed with
    | none => chunk.map (jsonFailFallback code_to_name)
    | some arr => arr
  (List.range chunk.length).map fun i =>
    categorizations.getD i (missingFallback code_to_name)

/-- The merge-and-validate loop (lines 169-202): build the
`categorized_transaction` record for one transaction and its adapter
record, running the Code Validator and appending the correction note to
the reasoning when the validator fired. -/
def mergeCat (valid_codes : List String) (code_to_name : List (String × String))
    (t : Transaction) (cat : OracleCat) : CatTrans :=
  let validated := validate_account_code cat.account_code valid_codes code_to_name
  let original_reasoning := cat.reasoning.getD "No reasoning provided"
  let corrected_reasoning :=
    match validated.validation_note with
    | some note => original_reasoning ++ " | CORRECTED: " ++ note
    | none => original_reasoning
  { transaction_id := t.transaction_id
    date := t.date
    description := t.description
    amount := t.amount
    account_code := validated.account_code
    account_name := validated.account_name
    confidence := cat.confidence.getD (3/10)
    reasoning := corrected_reasoning }

/-- The records produced for one chunk by the classification-and-repair
path (adapter stage plus Code Validator), given the oracle parse outcome. -/
def chunkRecords (parsed : Option (List OracleCat)) (chunk : List Transaction)
    (valid_codes : List String) (code_to_name : List (String × String)) :
    List CatTrans :=
  List.zipWith (mergeCat valid_codes code_to_name) chunk
    (adapterCats parsed chunk code_to_name)

/-! ### Worker and Parallel Chunk Executor
(`categorize_single_chunk_sync` outer `try`/`except`, and
`process_all_chunks_parallel`)

An oracle behaviour is a function giving, per chunk, either the parse
outcome of a returned response (`Except.ok`) or an exception raised during
the call, carrying its message (`Except.error`). -/

def OracleBehaviour := List Transaction → Except String (Option (List OracleCat))

/-- The per-chunk error record synthesized by the worker's `except` block
(lines 218-228): `confidence = 0.0`, reasoning embeds the message. -/
def workerErrorRecord (code_to_name : List (String × String)) (e : String)
    (t : Transaction) : CatTrans :=
  { transaction_id := t.transaction_id
    date := t.date
    description := t.description
    amount := t.amount
    account_code := "6900"
    account_name := (dgetLast code_to_name "6900").getD "Other Expenses"
    confidence := 0
    reasoning := "Parallel processing failed: " ++ e }

/-- `categorize_single_chunk_sync`: the whole body runs under
`try`/`except Exception`, so the worker is a total function — every
exception from the oracle call is converted to the all-fallback list. -/
def categorize_single_chunk_sync (oracle : OracleBehaviour)
    (chunk : List Transaction) (valid_codes : List String)
    (code_to_name : List (String × String)) : List CatTrans :=
  match oracle chunk with
  | Except.ok parsed => chunkRecords parsed chunk valid_codes code_to_name
  | Except.error e => chunk.map (workerErrorRecord code_to_name e)

/-- The error record synthesized by the executor's own `except` branch
(lines 303-321) for a future that raised. -/
def threadFailRecord (code_to_name : List (String × String)) (e : String)
    (t : Transaction) : CatTrans :=
  { transaction_id := t.transaction_id
    date := t.date
    description := t.description
    amount := t.amount
    account_code := "6900"
    account_name := (dgetLast code_to_name "6900").getD "Other Expenses"
    confidence := 0
    reasoning := "Thread execution failed: " ++ e }

/-- Outcome of the result-collection loop of `process_all_chunks_parallel`:
the ordered slot array, the successful-chunk count, and the 1-based list of
failed chunks. -/
structure ExecutorOutcome where
  results : List (List CatTrans)
  successful_chunks : Nat
  failed_chunks : List Nat
deriving DecidableEq

/-- The result-collection loop (lines 291-322), over the futures' outcomes:
a future that returned adds its result and counts as successful; a future
that raised is recorded in `failed_chunks` and its slot filled with
`threadFailRecord`s.  (Completion order does not affect the slot array; we
fold in index order.) -/
def collectFutures (chunks : List (List Transaction))
    (code_to_name : List (String × String))
    (futures : List (Except String (List CatTrans))) : ExecutorOutcome :=
  let indexed := List.zip (List.range chunks.length) (List.zip chunks futures)
  { results := indexed.map fun p =>
      match p.2.2 with
      | Except.ok r => r
      | Except.error e => p.2.1.map (threadFailRecord code_to_name e)
    successful_chunks := (indexed.filter fun p => p.2.2.isOk).length
    failed_chunks := (indexed.filter fun p => !p.2.2.isOk).map fun p => p.1 + 1 }

/-- `process_all_chunks_parallel` (result-collection part): each submitted
future computes `categorize_single_chunk_sync`, a total function, so its
`future.result()` is always `Except.ok`. -/
def process_all_chunks_parallel (oracle : OracleBehaviour)
    (chunks : List (List Transaction)) (valid_codes : List String)
    (code_to_name : List (String × String)) : ExecutorOutcome :=
  collectFutures chunks code_to_name
    (chunks.map fun c =>
      Except.ok (categorize_single_chunk_sync oracle c valid_codes code_to_name))

/-! ### Journal Entry Generator (`process_journal_entries`,
journal_generator processing tools) -/

structure JournalEntry where
  entry_id : Nat
  transaction_id : String
  date : String
  account_code : String
  account_name : String
  description : String
  debit : ℚ
  credit : ℚ
  entry_type : String
deriving DecidableEq

/-- The skip guard (line 97): `if not account_code or amount == 0: continue`. -/
def contributes (t : CatTrans) : Bool :=
  !(t.account_code = "") && !(t.amount = 0)

/-- The two entries emitted for one contributing transaction
(lines 101-155), sharing `entry_id = eid`. -/
def entryPair (eid : Nat) (t : CatTrans) : List JournalEntry :=
  if t.amount > 0 then
    [ { entry_id := eid, transaction_id := t.transaction_id, date := t.date
        account_code := "1000", account_name := "Cash"
        description := t.description
        debit := t.amount, credit := 0, entry_type := "debit" },
      { entry_id := eid, transaction_id := t.transaction_id, date := t.date
        account_code := t.account_code, account_name := t.account_name
        description := t.description
        debit := 0, credit := t.amount, entry_type := "credit" } ]
  else
    [ { entry_id := eid, transaction_id := t.transaction_id, date := t.date
        account_code := "1000", account_name := "Cash"
        description := t.description
        debit := 0, credit := |t.amount|, entry_type := "credit" },
      { entry_id := eid, transaction_id := t.transaction_id, date := t.date
        account_code := t.account_code, account_name := t.account_name
        description := t.description
        debit := |t.amount|, credit := 0, entry_type := "debit" } ]

/-- The generation loop (lines 84-157): `eid` is the running `entry_id`,
incremented once per contributing transaction. -/
def genEntries (eid : Nat) : List CatTrans → List JournalEntry
  | [] => []
  | t :: ts =>
    if contributes t then entryPair eid t ++ genEntries (eid + 1) ts
    else genEntries eid ts

def totalDebits (entries : List JournalEntry) : ℚ :=
  (entries.map JournalEntry.debit).sum

def totalCredits (entries : List JournalEntry) : ℚ :=
  (entries.map JournalEntry.credit).sum

/-- The two failure shapes of `process_journal_entries`: the empty-input
guard (lines 78-82) and the balance check (lines 163-167), whose error
message reports both totals. -/
inductive JournalError where
  | noTransactions
  | unbalanced (total_debits : ℚ) (total_credits : ℚ)
deriving DecidableEq

/-- `process_journal_entries` on the categorized-transaction list it
operates on: empty-input guard, generation loop, balance check; on success
it returns the entries together with the two retained totals. -/
def process_journal_entries (ts : List CatTrans) :
    Except JournalError (List JournalEntry × ℚ × ℚ) :=
  if ts = [] then Except.error JournalError.noTransactions
  else
    let entries := genEntries 1 ts
    let total_debits := totalDebits entries
    let total_credits := totalCredits entries
    if |total_debits - total_credits| > 1/100 then
      Except.error (JournalError.unbalanced total_debits total_credits)
    else
      Except.ok (entries, total_debits, total_credits)

/-! ### Session Store reads (§4.7)

A physical line of the ledger file, as the reading loops observe it after
`line.strip()`: blank, a metadata line (starts with `"# "`, carrying the
outcome of `json.loads` on the rest), or a data line (carrying the outcome
of `json.loads` on the whole line). -/

structure MetaJson where
  payload : String
deriving DecidableEq

inductive SessionLine where
  | blank
  | metaLine (parsed : Option MetaJson)
  | dataLine (parsed : Option CatTrans)
deriving DecidableEq

/-- The abort taken by `read_and_filter_results` (filtering tools,
lines 47-51) on a data line that fails `json.loads`: a structured error
naming the 1-based line number. -/
inductive ReadError where
  | invalidJson (line_num : Nat)
deriving DecidableEq

/-- The reading loop of `read_and_filter_results` (filtering tools,
lines 28-51): blank lines and malformed metadata lines are skipped, each
parsed metadata line overwrites `metadata`, parsed data lines accumulate —
but a data line that fails to parse *returns an error*, aborting the read.
`line_num` is the 1-based number of the current line. -/
def readFilterLoop (line_num : Nat) (metadata : Option MetaJson)
    (acc : List CatTrans) :
    List SessionLine → Except ReadError (Option MetaJson × List CatTrans)
  | [] => Except.ok (metadata, acc.reverse)
  | SessionLine.blank :: rest => readFilterLoop (line_num + 1) metadata acc rest
  | SessionLine.metaLine m :: rest =>
    readFilterLoop (line_num + 1) (match m with | some mj => some mj | none => metadata) acc rest
  | SessionLine.dataLine (some t) :: rest =>
    readFilterLoop (line_num + 1) metadata (t :: acc) rest
  | SessionLine.dataLine none :: _ =>
    Except.error (ReadError.invalidJson line_num)

/-- The file-reading part of `read_and_filter_results`. -/
def readFilterResults (lines : List SessionLine) :
    Except ReadError (Option MetaJson × List CatTrans) :=
  readFilterLoop 1 none [] lines

/-- The reading loop shared by `initialize_journal_session` (lines 43-60),
the file-fallback read of `process_journal_entries`,
`update_categorization_json`, `load_categorization_results` and
`finalize_categorization`: a line that fails to parse is skipped
(`except: pass`), never aborting the read. -/
def readSkippingLoop (metadata : Option MetaJson) (acc : List CatTrans) :
    List SessionLine → Option MetaJson × List CatTrans
  | [] => (metadata, acc.reverse)
  | SessionLine.blank :: rest => readSkippingLoop metadata acc rest
  | SessionLine.metaLine m :: rest =>
    readSkippingLoop (match m with | some mj => some mj | none => metadata) acc rest
  | SessionLine.dataLine (some t) :: rest => readSkippingLoop metadata (t :: acc) rest
  | SessionLine.dataLine none :: rest => readSkippingLoop metadata acc rest

def readSkipping (lines : List SessionLine) : Option MetaJson × List CatTrans :=
  readSkippingLoop none [] lines

/-- The well-formed data records of a line list, in order. -/
def goodRecords (lines : List SessionLine) : List CatTrans :=
  lines.filterMap fun l =>
    match l with
    | SessionLine.dataLine (some t) => some t
    | _ => none

/-! ### Confidence Classifier & Review Selector
(`read_and_filter_results`, filtering tools, lines 59-111) -/

/-- The error-tier test (line 69):
`account_code == 'ERROR' or confidence == 0.0`. -/
def isErrorTier (t : CatTrans) : Bool :=
  t.account_code = "ERROR" || t.confidence = 0

/-- The `if/elif` chain of the analysis loop (lines 65-76), as the four
tier membership tests. -/
def inHighTier (t : CatTrans) : Bool :=
  !isErrorTier t && decide ((9 : ℚ)/10 ≤ t.confidence)

def inMediumTier (t : CatTrans) : Bool :=
  !isErrorTier t && !decide ((9 : ℚ)/10 ≤ t.confidence) &&
    decide ((7 : ℚ)/10 ≤ t.confidence)

def inLowTier (t : CatTrans) : Bool :=
  !isErrorTier t && !decide ((9 : ℚ)/10 ≤ t.confidence) &&
    !decide ((7 : ℚ)/10 ≤ t.confidence)

/-- The four tier lists the loop accumulates, in input order. -/
def errorTier (ts : List CatTrans) : List CatTrans := ts.filter isErrorTier
def highTier (ts : List CatTrans) : List CatTrans := ts.filter inHighTier
def mediumTier (ts : List CatTrans) : List CatTrans := ts.filter inMediumTier
def lowTier (ts : List CatTrans) : List CatTrans := ts.filter inLowTier

/-- `needs_review = low_confidence + error_transactions` (line 97). -/
def needsReview (ts : List CatTrans) : List CatTrans :=
  lowTier ts ++ errorTier ts

/-- The description truncation of the review list (line 106):
`description[:100] + "..."` when longer than 100 characters. -/
def truncDescription (s : String) : String :=
  if 100 < s.data.length then String.mk (s.data.take 100 ++ "...".data) else s

/-- One entry of the detailed review list (lines 101-111). -/
structure ReviewDetail where
  transaction_id : String
  date : String
  amount : ℚ
  description : String
  account_code : String
  account_name : String
  confidence : ℚ
  reasoning : String
deriving DecidableEq

def mkReviewDetail (t : CatTrans) : ReviewDetail :=
  { transaction_id := t.transaction_id
    date := t.date
    amount := t.amount
    description := truncDescription t.description
    account_code := t.account_code
    account_name := t.account_name
    confidence := t.confidence
    reasoning := t.reasoning }

/-- `review_details`, the `transactions_for_review` value returned by
`read_and_filter_results`: one entry per element of `needs_review`. -/
def reviewDetails (ts : List CatTrans) : List ReviewDetail :=
  (needsReview ts).map mkReviewDetail

/-! ### User-correction update (`update_categorization_json`, agent.py) -/

/-- The nested payload of the `new_category` / `update_data` shapes; every
field is read with `.get`, so every field is optional. -/
structure UpdateFields where
  account_code : Option String := none
  account_name : Option String := none
  confidence : Option ℚ := none
  reasoning : Option String := none
deriving DecidableEq

/-- One element of the `updates` argument; the three historically
accumulated shapes (nested `new_category`, nested `update_data`, flat
fields) live in one record, `none` meaning the key is absent. -/
structure UpdatePayload where
  transaction_id : String
  new_category : Option UpdateFields := none
  update_data : Option UpdateFields := none
  account_code : Option String := none
  account_name : Option String := none
  confidence : Option ℚ := none
  reasoning : Option String := none
  category : Option String := none
deriving DecidableEq

/-- The dict comprehension `{u['transaction_id']: u for u in updates}`
(line 169): for a duplicated id the *last* update wins. -/
def updateMapLookup (updates : List UpdatePayload) (tid : String) :
    Option UpdatePayload :=
  updates.reverse.find? fun u => u.transaction_id = tid

/-- The shape dispatch (lines 186-208): the proposed
`(account_code, account_name, confidence, reasoning)` for a matched record,
trying `new_category`, then `update_data`, then the flat fields. -/
def proposedValues (u : UpdatePayload) (cat : CatTrans) :
    String × String × ℚ × String :=
  match u.new_category with
  | some nc =>
    (nc.account_code.getD cat.account_code, nc.account_name.getD cat.account_name,
     nc.confidence.getD (95/100), nc.reasoning.getD "User manually updated the category.")
  | none =>
    match u.update_data with
    | some ud =>
      (ud.account_code.getD cat.account_code, ud.account_name.getD cat.account_name,
       ud.confidence.getD (95/100), ud.reasoning.getD "User manually updated the category.")
    | none =>
      (u.account_code.getD cat.account_code, u.account_name.getD cat.account_name,
       u.confidence.getD (95/100), u.reasoning.getD "User manually updated the category.")

/-- The changed record written in the `account_changed` branch
(lines 215-223). -/
def appliedRecord (u : UpdatePayload) (now : String) (cat : CatTrans)
    (code name : String) (conf : ℚ) (reas : String) : CatTrans :=
  { cat with
    account_code := code
    account_name := name
    category := some (u.category.getD (cat.category.getD "Updated"))
    confidence := conf
    reasoning := reas
    updated_by := some "user"
    updated_at := some now }

/-- The body of the update loop (lines 178-230) for one record: no matching
update, or a matching update whose proposed code and name both equal the
current values (`account_changed` false, record untouched, not counted), or
a real change (record overwritten, counted). -/
def applyUpdateOne (updates : List UpdatePayload) (now : String)
    (cat : CatTrans) : CatTrans × Bool :=
  match updateMapLookup updates cat.transaction_id with
  | none => (cat, false)
  | some u =>
    let v := proposedValues u cat
    let account_changed := !(v.1 = cat.account_code) || !(v.2.1 = cat.account_name)
    if account_changed then
      (appliedRecord u now cat v.1 v.2.1 v.2.2.1 v.2.2.2, true)
    else
      (cat, false)

/-- The confidence-tier recomputation (lines 235-243). -/
structure ConfSummary where
  high : Nat
  medium : Nat
  low : Nat
deriving DecidableEq

def confSummary (cats : List CatTrans) : ConfSummary :=
  { high := (cats.filter fun c => decide ((9 : ℚ)/10 ≤ c.confidence)).length
    medium := (cats.filter fun c =>
      !decide ((9 : ℚ)/10 ≤ c.confidence) && decide ((7 : ℚ)/10 ≤ c.confidence)).length
    low := (cats.filter fun c =>
      !decide ((9 : ℚ)/10 ≤ c.confidence) && !decide ((7 : ℚ)/10 ≤ c.confidence)).length }

/-- The update pass of `update_categorization_json`: the rewritten record
list, `updates_applied`, and the recomputed `confidence_summary`. -/
def update_categorization_json (cats : List CatTrans)
    (updates : List UpdatePayload) (now : String) :
    List CatTrans × Nat × ConfSummary :=
  let processed := cats.map (applyUpdateOne updates now)
  let newCats := processed.map Prod.fst
  (newCats, (processed.filter Prod.snd).length, confSummary newCats)

/-! ## Lemmas: Chunker -/

theorem makeChunksAux_length (total : Nat) (l : List α) (i num : Nat) :
    (makeChunksAux total l i num).length = (l.length + CHUNK_SIZE - 1) / CHUNK_SIZE := by
  match l with
  | [] => simp [makeChunksAux, CHUNK_SIZE]
  | t :: rest =>
    rw [makeChunksAux]
    have ih := makeChunksAux_length total ((t :: rest).drop CHUNK_SIZE)
      (i + CHUNK_SIZE) (num + 1)
    simp only [List.length_cons, List.length_drop, CHUNK_SIZE] at ih ⊢
    omega
termination_by l.length
decreasing_by simp [List.length_drop, CHUNK_SIZE]; omega

theorem makeChunksAux_flatten (total : Nat) (l : List α) (i num : Nat) :
    ((makeChunksAux total l i num).map Chunk.transactions).flatten = l := by
  match l with
  | [] => simp [makeChunksAux]
  | t :: rest =>
    rw [makeChunksAux]
    have ih := makeChunksAux_flatten total ((t :: rest).drop CHUNK_SIZE)
      (i + CHUNK_SIZE) (num + 1)
    simp only [List.map_cons, List.flatten_cons, ih]
    exact List.take_append_drop _ _
termination_by l.length
decreasing_by simp [List.length_drop, CHUNK_SIZE]; omega

theorem makeChunksAux_getElem (total : Nat) (l : List α) (i num k : Nat)
    (h : k < (makeChunksAux total l i num).length) :
    (makeChunksAux total l i num).get? k =
      some { chunk_number := num + k
             transactions := (l.drop (CHUNK_SIZE * k)).take CHUNK_SIZE
             start_index := i + CHUNK_SIZE * k
             end_index := min (i + CHUNK_SIZE * k + CHUNK_SIZE) total } := by
  induction k generalizing l i num with
  | zero =>
    match l with
    | [] => rw [makeChunksAux] at h; simp at h
    | t :: rest => rw [makeChunksAux]; simp
  | succ k ih =>
    match l with
    | [] => rw [makeChunksAux] at h; simp at h
    | t :: rest =>
      have h2 : k < (makeChunksAux total ((t :: rest).drop CHUNK_SIZE)
          (i + CHUNK_SIZE) (num + 1)).length := by
        have e1 := makeChunksAux_length total (t :: rest) i num
        have e2 := makeChunksAux_length total ((t :: rest).drop CHUNK_SIZE)
          (i + CHUNK_SIZE) (num + 1)
        simp only [List.length_cons, List.length_drop, CHUNK_SIZE] at e1 e2 ⊢
        omega
      have ihx := ih ((t :: rest).drop CHUNK_SIZE) (i + CHUNK_SIZE) (num + 1) h2
      rw [makeChunksAux]
      simp only [List.get?_cons_succ, ihx, Option.some.injEq, Chunk.mk.injEq,
        List.drop_drop, Nat.mul_succ]
      refine ⟨by omega, ?_, by omega, by omega⟩
      rw [Nat.add_comm CHUNK_SIZE (CHUNK_SIZE * k)]

/-! ## Lemmas: Journal Entry Generator -/

theorem genEntries_structure (n : Nat) (ts : List CatTrans) :
    genEntries n ts =
      (List.zipWith entryPair (List.range' n (ts.filter contributes).length)
        (ts.filter contributes)).flatten := by
  induction ts generalizing n with
  | nil => simp [genEntries]
  | cons t ts ih =>
    by_cases h : contributes t
    · simp [genEntries, h, List.filter_cons, ih, List.range']
    · simp [genEntries, h, List.filter_cons, ih]

theorem entryPair_balance (eid : Nat) (t : CatTrans) :
    totalDebits (entryPair eid t) = totalCredits (entryPair eid t) := by
  by_cases h : t.amount > 0 <;>
    simp [entryPair, totalDebits, totalCredits, h]

theorem genEntries_balance (n : Nat) (ts : List CatTrans) :
    totalDebits (genEntries n ts) = totalCredits (genEntries n ts) := by
  induction ts generalizing n with
  | nil => simp [genEntries, totalDebits, totalCredits]
  | cons t ts ih =>
    by_cases h : contributes t
    · simp only [genEntries, h, if_true, totalDebits, totalCredits,
        List.map_append, List.sum_append]
      have hp := entryPair_balance n t
      simp only [totalDebits, totalCredits] at hp
      rw [hp]
      have hr := ih (n + 1)
      simp only [totalDebits, totalCredits] at hr
      rw [hr]
    · simp only [genEntries, h, if_false, Bool.false_eq_true]
      exact ih n

/-- On a nonempty input the balance check always passes and
`process_journal_entries` returns the generated entries with their totals. -/
theorem process_ok_of_ne_nil (ts : List CatTrans) (hne : ts ≠ []) :
    process_journal_entries ts =
      Except.ok (genEntries 1 ts, totalDebits (genEntries 1 ts),
        totalCredits (genEntries 1 ts)) := by
  have hb := genEntries_balance 1 ts
  simp only [process_journal_entries, hne, if_false]
  rw [hb]
  simp

/-! ## Lemmas: Code Validator -/

/-- Every element of a `zipWith` image is the image of some pair. -/
theorem mem_zipWith_ex {f : α → β → γ} :
    ∀ {l1 : List α} {l2 : List β} {c : γ},
      c ∈ List.zipWith f l1 l2 → ∃ a b, c = f a b
  | [], _, _, h => by simp at h
  | _ :: _, [], _, h => by simp at h
  | a :: l1, b :: l2, c, h => by
    rcases List.mem_cons.mp h with h | h
    · exact ⟨a, b, h⟩
    · exact mem_zipWith_ex h

/-- The Code Validator returns either a code of the chart or the literal
fallback `"6900"` — the latter whether or not `"6900"` is in the chart. -/
theorem validate_mem_or_fallback (code : Option String) (valid : List String)
    (c2n : List (String × String)) :
    (validate_account_code code valid c2n).account_code ∈ valid ∨
    (validate_account_code code valid c2n).account_code = "6900" := by
  match code with
  | none => exact Or.inr rfl
  | some s =>
    by_cases hs : s = ""
    · right
      simp [validate_account_code, hs]
    · by_cases hv : valid.contains (stripS s)
      · left
        have hc : (validate_account_code (some s) valid c2n).account_code = stripS s := by
          simp only [validate_account_code, hs, if_false]
          rw [if_pos hv]
        rw [hc]
        exact List.elem_iff.mp hv
      · right
        simp only [validate_account_code, hs, if_false]
        rw [if_neg hv]

/-! ## Lemmas: adapter -/

theorem getD_of_len_le : ∀ (l : List γ) (i : Nat) (d : γ), l.length ≤ i → l.getD i d = d
  | [], 0, _, _ => rfl
  | [], _ + 1, _, _ => rfl
  | _ :: _, 0, _, h => by simp at h
  | _ :: l, i + 1, d, h => by
    simpa using getD_of_len_le l i d (by simpa using h)

theorem range_map_getD : ∀ (m : List γ) (d : γ),
    (List.range m.length).map (fun i => m.getD i d) = m
  | [], _ => rfl
  | a :: m, d => by
    simp only [List.length_cons, List.range_succ_eq_map, List.map_cons,
      List.map_map, List.getD_cons_zero]
    congr 1
    have : ((fun i => (a :: m).getD i d) ∘ fun i => i + 1) =
        fun i => m.getD i d := by
      funext i
      simp
    rw [this]
    exact range_map_getD m d

/-! ## Lemmas: executor -/

theorem collect_results_ok (f : List Transaction → List CatTrans)
    (c2n : List (String × String)) :
    ∀ (chunks : List (List Transaction)) (idxs : List Nat),
      (List.zip idxs (List.zip chunks (chunks.map fun c => Except.ok (ε := String) (f c)))).map
          (fun p => match p.2.2 with
            | Except.ok r => r
            | Except.error e => p.2.1.map (threadFailRecord c2n e)) =
        (List.zip idxs chunks).map fun p => f p.2
  | [], _ => by simp
  | _ :: _, [] => by simp
  | c :: chunks, i :: idxs => by
    simpa using collect_results_ok f c2n chunks idxs

theorem zip_futures_isOk {chunks : List (List Transaction)}
    {f : List Transaction → List CatTrans} {p : Nat × List Transaction × Except String (List CatTrans)}
    (hp : p ∈ List.zip idxs (List.zip chunks (chunks.map fun c => Except.ok (ε := String) (f c)))) :
    p.2.2.isOk = true := by
  have h1 := List.of_mem_zip hp
  have h2 := List.of_mem_zip (h1.2 : p.2 ∈ _)
  obtain ⟨c, _, hc⟩ := List.mem_map.mp h2.2
  rw [← hc]
  rfl

/-! ## Lemmas: session-store reads -/

theorem readSkippingLoop_records :
    ∀ (lines : List SessionLine) (m : Option MetaJson) (acc : List CatTrans),
      (readSkippingLoop m acc lines).2 = acc.reverse ++ goodRecords lines
  | [], m, acc => by simp [readSkippingLoop, goodRecords]
  | SessionLine.blank :: rest, m, acc => by
    simpa [readSkippingLoop, goodRecords] using readSkippingLoop_records rest m acc
  | SessionLine.metaLine mj :: rest, m, acc => by
    cases mj with
    | some x =>
      simpa [readSkippingLoop, goodRecords] using readSkippingLoop_records rest (some x) acc
    | none =>
      simpa [readSkippingLoop, goodRecords] using readSkippingLoop_records rest m acc
  | SessionLine.dataLine (some t) :: rest, m, acc => by
    have ih := readSkippingLoop_records rest m (t :: acc)
    simp only [readSkippingLoop, goodRecords, List.filterMap_cons] at ih ⊢
    rw [ih]
    simp
  | SessionLine.dataLine none :: rest, m, acc => by
    simpa [readSkippingLoop, goodRecords] using readSkippingLoop_records rest m acc

theorem readFilterLoop_ok :
    ∀ (lines : List SessionLine) (n : Nat) (m : Option MetaJson) (acc : List CatTrans),
      (∀ l ∈ lines, l ≠ SessionLine.dataLine none) →
      readFilterLoop n m acc lines =
        Except.ok ((readSkippingLoop m acc lines).1, acc.reverse ++ goodRecords lines)
  | [], n, m, acc, _ => by simp [readFilterLoop, readSkippingLoop, goodRecords]
  | SessionLine.blank :: rest, n, m, acc, h => by
    have ih := readFilterLoop_ok rest (n + 1) m acc (fun l hl => h l (List.mem_cons_of_mem _ hl))
    simpa [readFilterLoop, readSkippingLoop, goodRecords] using ih
  | SessionLine.metaLine mj :: rest, n, m, acc, h => by
    cases mj with
    | some x =>
      have ih := readFilterLoop_ok rest (n + 1) (some x) acc
        (fun l hl => h l (List.mem_cons_of_mem _ hl))
      simpa [readFilterLoop, readSkippingLoop, goodRecords] using ih
    | none =>
      have ih := readFilterLoop_ok rest (n + 1) m acc
        (fun l hl => h l (List.mem_cons_of_mem _ hl))
      simpa [readFilterLoop, readSkippingLoop, goodRecords] using ih
  | SessionLine.dataLine (some t) :: rest, n, m, acc, h => by
    have ih := readFilterLoop_ok rest (n + 1) m (t :: acc)
      (fun l hl => h l (List.mem_cons_of_mem _ hl))
    simp only [readFilterLoop, readSkippingLoop, goodRecords,
      List.filterMap_cons] at ih ⊢
    rw [ih]
    simp
  | SessionLine.dataLine none :: rest, n, m, acc, h => by
    exact absurd rfl (h (SessionLine.dataLine none) (List.mem_cons_self _ _))

theorem readFilterLoop_err :
    ∀ (lines : List SessionLine) (n : Nat) (m : Option MetaJson) (acc : List CatTrans),
      (∃ l ∈ lines, l = SessionLine.dataLine none) →
      ∃ k, readFilterLoop n m acc lines = Except.error (ReadError.invalidJson k)
  | [], n, m, acc, h => by simp at h
  | SessionLine.blank :: rest, n, m, acc, h => by
    apply readFilterLoop_err rest (n + 1) m acc
    rcases h with ⟨l, hl, he⟩
    rcases List.mem_cons.mp hl with h1 | h1
    · rw [h1] at he; exact absurd he (by simp)
    · exact ⟨l, h1, he⟩
  | SessionLine.metaLine mj :: rest, n, m, acc, h => by
    have htail : ∃ l ∈ rest, l = SessionLine.dataLine none := by
      rcases h with ⟨l, hl, he⟩
      rcases List.mem_cons.mp hl with h1 | h1
      · rw [h1] at he; exact absurd he (by simp)
      · exact ⟨l, h1, he⟩
    cases mj with
    | some x =>
      have ih := readFilterLoop_err rest (n + 1) (some x) acc htail
      rcases ih with ⟨k, hk⟩
      exact ⟨k, by simpa [readFilterLoop] using hk⟩
    | none =>
      have ih := readFilterLoop_err rest (n + 1) m acc htail
      rcases ih with ⟨k, hk⟩
      exact ⟨k, by simpa [readFilterLoop] using hk⟩
  | SessionLine.dataLine (some t) :: rest, n, m, acc, h => by
    apply readFilterLoop_err rest (n + 1) m (t :: acc)
    rcases h with ⟨l, hl, he⟩
    rcases List.mem_cons.mp hl with h1 | h1
    · rw [h1] at he; exact absurd he (by simp)
    · exact ⟨l, h1, he⟩
  | SessionLine.dataLine none :: rest, n, m, acc, _ =>
    ⟨n, rfl⟩

/-! ## Lemmas: confidence tiers -/

theorem isErrorTier_iff (t : CatTrans) :
    isErrorTier t = true ↔ (t.account_code = "ERROR" ∨ t.confidence = 0) := by
  simp [isErrorTier]

theorem inHighTier_iff (t : CatTrans) :
    inHighTier t = true ↔
      (¬(t.account_code = "ERROR" ∨ t.confidence = 0) ∧
        9/10 ≤ t.confidence) := by
  rw [inHighTier, Bool.and_eq_true, Bool.not_eq_true', ← isErrorTier_iff t]
  cases isErrorTier t <;> simp

theorem inMediumTier_iff (t : CatTrans) :
    inMediumTier t = true ↔
      (¬(t.account_code = "ERROR" ∨ t.confidence = 0) ∧
        7/10 ≤ t.confidence ∧ t.confidence < 9/10) := by
  rw [inMediumTier, Bool.and_eq_true, Bool.and_eq_true, Bool.not_eq_true',
    Bool.not_eq_true', ← isErrorTier_iff t]
  cases isErrorTier t <;> simp [not_le, and_comm]

theorem inLowTier_iff (t : CatTrans) :
    inLowTier t = true ↔
      (¬(t.account_code = "ERROR" ∨ t.confidence = 0) ∧
        t.confidence < 7/10) := by
  rw [inLowTier, Bool.and_eq_true, Bool.and_eq_true, Bool.not_eq_true',
    Bool.not_eq_true', ← isErrorTier_iff t]
  cases isErrorTier t <;> simp [not_le]
  intro h
  exact lt_of_lt_of_le h (by norm_num)

theorem tier_exhaustive (t : CatTrans) :
    isErrorTier t = true ∨ inHighTier t = true ∨
      inMediumTier t = true ∨ inLowTier t = true := by
  by_cases he : isErrorTier t = true
  · exact Or.inl he
  · have heb : isErrorTier t = false := by simpa using he
    by_cases h9 : (9 : ℚ)/10 ≤ t.confidence
    · refine Or.inr (Or.inl ?_)
      simp [inHighTier, heb, h9]
    · by_cases h7 : (7 : ℚ)/10 ≤ t.confidence
      · refine Or.inr (Or.inr (Or.inl ?_))
        simp [inMediumTier, heb, h9, h7]
      · refine Or.inr (Or.inr (Or.inr ?_))
        simp [inLowTier, heb, h9, h7]

theorem tier_length_sum (ts : List CatTrans) :
    (errorTier ts).length + (highTier ts).length + (mediumTier ts).length +
      (lowTier ts).length = ts.length := by
  induction ts with
  | nil => rfl
  | cons t ts ih =>
    simp only [errorTier, highTier, mediumTier, lowTier, List.filter_cons] at ih ⊢
    by_cases he : isErrorTier t = true
    · have h2 : inHighTier t = false := by simp [inHighTier, he]
      have h3 : inMediumTier t = false := by simp [inMediumTier, he]
      have h4 : inLowTier t = false := by simp [inLowTier, he]
      simp only [he, h2, h3, h4, if_true, Bool.false_eq_true, if_false,
        List.length_cons]
      omega
    · have heb : isErrorTier t = false := by simpa using he
      by_cases h9 : (9 : ℚ)/10 ≤ t.confidence
      · have h2 : inHighTier t = true := by simp [inHighTier, heb, h9]
        have h3 : inMediumTier t = false := by simp [inMediumTier, h9]
        have h4 : inLowTier t = false := by simp [inLowTier, h9]
        simp only [heb, h2, h3, h4, if_true, Bool.false_eq_true, if_false,
          List.length_cons]
        omega
      · by_cases h7 : (7 : ℚ)/10 ≤ t.confidence
        · have h2 : inHighTier t = false := by simp [inHighTier, h9]
          have h3 : inMediumTier t = true := by simp [inMediumTier, heb, h9, h7]
          have h4 : inLowTier t = false := by simp [inLowTier, h7]
          simp only [heb, h2, h3, h4, if_true, Bool.false_eq_true, if_false,
            List.length_cons]
          omega
        · have h2 : inHighTier t = false := by simp [inHighTier, h9]
          have h3 : inMediumTier t = false := by simp [inMediumTier, h7]
          have h4 : inLowTier t = true := by simp [inLowTier, heb, h9, h7]
          simp only [heb, h2, h3, h4, if_true, Bool.false_eq_true, if_false,
            List.length_cons]
          omega

/-! ## Claim theorems -/

/-- C5: the adapter converts every parse failure into a success-shaped
record list — on unparseable JSON it yields exactly one record per
transaction of the chunk, with `account_code = "6900"`, the indexed name,
`confidence = 0.3` and reasoning
`"JSON parsing failed, using fallback categorization"`; when the parsed
array is shorter than the chunk, every index past its end gets the
`"Missing categorization result"` fallback with `confidence = 0.3`; and
for every parse outcome whatsoever the adapter returns one record per
transaction (it never escapes its boundary with a failure). -/
theorem c5_adapter_fallback :
    (∀ (chunk : List Transaction) (c2n : List (String × String)),
      adapterCats none chunk c2n =
        chunk.map fun t =>
          { transaction_id := some t.transaction_id
            account_code := some "6900"
            account_name := some ((dgetLast c2n "6900").getD "Other Expenses")
            confidence := some (3/10)
            reasoning := some "JSON parsing failed, using fallback categorization" }) ∧
    (∀ (arr : List OracleCat) (chunk : List Transaction)
        (c2n : List (String × String)) (i : Nat),
      arr.length ≤ i → i < chunk.length →
      (adapterCats (some arr) chunk c2n).get? i =
        some { transaction_id := none
               account_code := some "6900"
               account_name := some ((dgetLast c2n "6900").getD "Other Expenses")
               confidence := some (3/10)
               reasoning := some "Missing categorization result" }) ∧
    (∀ (parsed : Option (List OracleCat)) (chunk : List Transaction)
        (c2n : List (String × String)),
      (adapterCats parsed chunk c2n).length = chunk.length) := by
  refine ⟨?_, ?_, ?_⟩
  · intro chunk c2n
    show (List.range chunk.length).map
        (fun i => (chunk.map (jsonFailFallback c2n)).getD i (missingFallback c2n)) = _
    have hlen : chunk.length = (chunk.map (jsonFailFallback c2n)).length := by
      simp
    rw [hlen, range_map_getD]
    rfl
  · intro arr chunk c2n i hge hlt
    show ((List.range chunk.length).map
        (fun j => arr.getD j (missingFallback c2n))).get? i = _
    rw [List.get?_eq_getElem?, List.getElem?_map, List.getElem?_range hlt]
    simp only [Option.map_some']
    rw [getD_of_len_le arr i _ hge]
    rfl
  · intro parsed chunk c2n
    simp [adapterCats]

/-- Witness for C5: a parsed-but-empty oracle array against a one-element
chunk; index 0 receives the missing-result fallback. -/
theorem c5_witness :
    (adapterCats (some [])
        [{ transaction_id := "trans_0", date := "d", description := "x", amount := 1 }]
        [("6900", "Other Expenses")]).get? 0 =
      some { transaction_id := none
             account_code := some "6900"
             account_name := some ((dgetLast [("6900", "Other Expenses")] "6900").getD
               "Other Expenses")
             confidence := some (3/10)
             reasoning := some "Missing categorization result" } :=
  c5_adapter_fallback.2.1 []
    [{ transaction_id := "trans_0", date := "d", description := "x", amount := 1 }]
    [("6900", "Other Expenses")] 0 (by decide) (by decide)

/-- C10: for every oracle behaviour — including one that raises during a
chunk's classification — the executor reports zero failed chunks and a
successful-chunk count equal to the total chunk count, because each worker
is total: it catches every oracle exception and returns the all-fallback
list (confidence 0.0, reasoning embedding the exception message) instead
of raising; the slot array holds exactly the per-chunk worker results in
chunk order. -/
theorem c10_executor_no_failures :
    (∀ (oracle : OracleBehaviour) (chunks : List (List Transaction))
        (valid : List String) (c2n : List (String × String)),
      (process_all_chunks_parallel oracle chunks valid c2n).failed_chunks = [] ∧
      (process_all_chunks_parallel oracle chunks valid c2n).successful_chunks =
        chunks.length ∧
      (process_all_chunks_parallel oracle chunks valid c2n).results =
        chunks.map fun c => categorize_single_chunk_sync oracle c valid c2n) ∧
    (∀ (oracle : OracleBehaviour) (chunk : List Transaction)
        (valid : List String) (c2n : List (String × String)) (e : String),
      oracle chunk = Except.error e →
      categorize_single_chunk_sync oracle chunk valid c2n =
        chunk.map (workerErrorRecord c2n e)) := by
  constructor
  · intro oracle chunks valid c2n
    refine ⟨?_, ?_, ?_⟩
    · simp only [process_all_chunks_parallel, collectFutures]
      have hnil : (List.zip (List.range chunks.length)
          (List.zip chunks (chunks.map fun c =>
            Except.ok (ε := String)
              (categorize_single_chunk_sync oracle c valid c2n)))).filter
          (fun p => !p.2.2.isOk) = [] := by
        rw [List.filter_eq_nil_iff]
        intro p hp
        simp [zip_futures_isOk hp]
      rw [hnil]
      rfl
    · simp only [process_all_chunks_parallel, collectFutures]
      have hself : (List.zip (List.range chunks.length)
          (List.zip chunks (chunks.map fun c =>
            Except.ok (ε := String)
              (categorize_single_chunk_sync oracle c valid c2n)))).filter
          (fun p => p.2.2.isOk) = List.zip (List.range chunks.length)
          (List.zip chunks (chunks.map fun c =>
            Except.ok (ε := String)
              (categorize_single_chunk_sync oracle c valid c2n))) := by
        rw [List.filter_eq_self]
        intro p hp
        exact zip_futures_isOk hp
      rw [hself]
      simp
    · simp only [process_all_chunks_parallel, collectFutures]
      rw [collect_results_ok]
      have hsnd : (List.zip (List.range chunks.length) chunks).map Prod.snd = chunks :=
        List.map_snd_zip _ _ (by simp)
      calc (List.zip (List.range chunks.length) chunks).map
              (fun p => categorize_single_chunk_sync oracle p.2 valid c2n)
          = ((List.zip (List.range chunks.length) chunks).map Prod.snd).map
              (fun c => categorize_single_chunk_sync oracle c valid c2n) := by
            rw [List.map_map]
            rfl
        _ = chunks.map fun c => categorize_single_chunk_sync oracle c valid c2n := by
            rw [hsnd]
  · intro oracle chunk valid c2n e he
    simp [categorize_single_chunk_sync, he]

/-- Witness for C10: a two-chunk run whose oracle raises on the second
chunk; no failed chunks are reported and the raising chunk's records carry
confidence 0 with the exception message. -/
theorem c10_witness :
    (process_all_chunks_parallel
        (fun c => if c.length = 1 then Except.error "boom" else Except.ok none)
        [[], [{ transaction_id := "trans_0", date := "d", description := "x", amount := 1 }]]
        ["6900"] [("6900", "Other Expenses")]).failed_chunks = [] ∧
    categorize_single_chunk_sync
        (fun c => if c.length = 1 then Except.error "boom" else Except.ok none)
        [{ transaction_id := "trans_0", date := "d", description := "x", amount := 1 }]
        ["6900"] [("6900", "Other Expenses")] =
      [{ transaction_id := "trans_0", date := "d", description := "x", amount := 1 }].map
        (workerErrorRecord [("6900", "Other Expenses")] "boom") :=
  ⟨(c10_executor_no_failures.1
      (fun c => if c.length = 1 then Except.error "boom" else Except.ok none)
      [[], [{ transaction_id := "trans_0", date := "d", description := "x", amount := 1 }]]
      ["6900"] [("6900", "Other Expenses")]).1,
   c10_executor_no_failures.2
      (fun c => if c.length = 1 then Except.error "boom" else Except.ok none)
      [{ transaction_id := "trans_0", date := "d", description := "x", amount := 1 }]
      ["6900"] [("6900", "Other Expenses")] "boom" (by rfl)⟩

/-- C6, counterexample to the claim as stated: on the read path of
`read_and_filter_results` (the filtering stage) a non-blank data line that
fails to parse as JSON *aborts* the read with an `Invalid JSON on line 1`
error instead of being skipped — the well-formed record on line 2 is not
returned, while the skipping read path of `initialize_journal_session`
returns it. -/
theorem c6_counterexample :
    readFilterResults
        [SessionLine.dataLine none,
         SessionLine.dataLine (some
           { transaction_id := "trans_0", date := "d", description := "x",
             amount := 1, account_code := "6900",
             account_name := "Other Expenses", confidence := 3/10,
             reasoning := "r" })] =
      Except.error (ReadError.invalidJson 1) ∧
    (readSkipping
        [SessionLine.dataLine none,
         SessionLine.dataLine (some
           { transaction_id := "trans_0", date := "d", description := "x",
             amount := 1, account_code := "6900",
             account_name := "Other Expenses", confidence := 3/10,
             reasoning := "r" })]).2 =
      [{ transaction_id := "trans_0", date := "d", description := "x",
         amount := 1, account_code := "6900",
         account_name := "Other Expenses", confidence := 3/10,
         reasoning := "r" }] := by
  constructor <;> rfl

/-- C6, amended: the skipping read paths (`initialize_journal_session`, the
journal-processing file fallback, `update_categorization_json`,
`load_categorization_results`, `finalize_categorization`) skip every
malformed data line and return exactly the well-formed
CategorizedTransaction records, in order; the filtering read path
(`read_and_filter_results`) behaves that way only when no malformed data
line is present — whenever one is, it aborts with an invalid-JSON error
naming a line, returning no records. -/
theorem c6_read_paths_amended :
    (∀ lines : List SessionLine, (readSkipping lines).2 = goodRecords lines) ∧
    (∀ lines : List SessionLine,
      (∀ l ∈ lines, l ≠ SessionLine.dataLine none) →
      readFilterResults lines =
        Except.ok ((readSkipping lines).1, goodRecords lines)) ∧
    (∀ lines : List SessionLine,
      (∃ l ∈ lines, l = SessionLine.dataLine none) →
      ∃ k, readFilterResults lines = Except.error (ReadError.invalidJson k)) := by
  refine ⟨?_, ?_, ?_⟩
  · intro lines
    simpa using readSkippingLoop_records lines none []
  · intro lines h
    simpa [readFilterResults, readSkipping] using readFilterLoop_ok lines 1 none [] h
  · intro lines h
    exact readFilterLoop_err lines 1 none [] h

/-- Witness for C6: at a file consisting of one well-formed data line, the
filtering read succeeds and returns it; at a file with one malformed line,
it aborts. -/
theorem c6_witness :
    readFilterResults
        [SessionLine.dataLine (some
          { transaction_id := "trans_0", date := "d", description := "x",
            amount := 1, account_code := "6900",
            account_name := "Other Expenses", confidence := 3/10,
            reasoning := "r" })] =
      Except.ok
        ((readSkipping
            [SessionLine.dataLine (some
              { transaction_id := "trans_0", date := "d", description := "x",
                amount := 1, account_code := "6900",
                account_name := "Other Expenses", confidence := 3/10,
                reasoning := "r" })]).1,
         goodRecords
            [SessionLine.dataLine (some
              { transaction_id := "trans_0", date := "d", description := "x",
                amount := 1, account_code := "6900",
                account_name := "Other Expenses", confidence := 3/10,
                reasoning := "r" })]) ∧
    (∃ k, readFilterResults [SessionLine.dataLine none] =
      Except.error (ReadError.invalidJson k)) :=
  ⟨c6_read_paths_amended.2.1
      [SessionLine.dataLine (some
        { transaction_id := "trans_0", date := "d", description := "x",
          amount := 1, account_code := "6900",
          account_name := "Other Expenses", confidence := 3/10,
          reasoning := "r" })] (by decide),
   c6_read_paths_amended.2.2 [SessionLine.dataLine none]
     ⟨SessionLine.dataLine none, by decide, rfl⟩⟩

/-- C8, counterexample to the claim as stated: the review list is *not*
capped to a maximum count — for 11 identical low-confidence records it has
all 11 entries, one per element of `low ∪ error` (the code's own display
caps, top-10 account usage and first-5 high-confidence samples, do not
apply to `transactions_for_review`). -/
theorem c8_counterexample :
    (reviewDetails (List.replicate 11
        { transaction_id := "trans_0", date := "d", description := "x",
          amount := 1, account_code := "6900",
          account_name := "Other Expenses", confidence := 0,
          reasoning := "r" })).length = 11 ∧
    ¬ (reviewDetails (List.replicate 11
        { transaction_id := "trans_0", date := "d", description := "x",
          amount := 1, account_code := "6900",
          account_name := "Other Expenses", confidence := 0,
          reasoning := "r" })).length ≤ 10 := by
  constructor <;> decide

/-- C8, amended: the classifier partitions the records into four disjoint,
exhaustive tiers — error iff `account_code = "ERROR"` or
`confidence = 0.0`, otherwise high iff `confidence ≥ 0.9`, medium iff
`0.7 ≤ confidence < 0.9`, low iff `confidence < 0.7`; the review list is
`low ++ error` with each entry's description truncated to at most 103
characters (100 plus `"..."`), but it is *uncapped*: its length always
equals `|low| + |error|`. -/
theorem c8_tiers_amended :
    (∀ t : CatTrans, isErrorTier t = true ∨ inHighTier t = true ∨
      inMediumTier t = true ∨ inLowTier t = true) ∧
    (∀ t : CatTrans, isErrorTier t = true ↔
      (t.account_code = "ERROR" ∨ t.confidence = 0)) ∧
    (∀ t : CatTrans, inHighTier t = true ↔
      (¬(t.account_code = "ERROR" ∨ t.confidence = 0) ∧ 9/10 ≤ t.confidence)) ∧
    (∀ t : CatTrans, inMediumTier t = true ↔
      (¬(t.account_code = "ERROR" ∨ t.confidence = 0) ∧
        7/10 ≤ t.confidence ∧ t.confidence < 9/10)) ∧
    (∀ t : CatTrans, inLowTier t = true ↔
      (¬(t.account_code = "ERROR" ∨ t.confidence = 0) ∧ t.confidence < 7/10)) ∧
    (∀ ts : List CatTrans,
      (errorTier ts).length + (highTier ts).length + (mediumTier ts).length +
        (lowTier ts).length = ts.length) ∧
    (∀ ts : List CatTrans,
      reviewDetails ts = (lowTier ts ++ errorTier ts).map mkReviewDetail) ∧
    (∀ ts : List CatTrans,
      (reviewDetails ts).length = (lowTier ts).length + (errorTier ts).length) ∧
    (∀ t : CatTrans, ((mkReviewDetail t).description).data.length ≤ 103) := by
  refine ⟨tier_exhaustive, isErrorTier_iff, inHighTier_iff, inMediumTier_iff,
    inLowTier_iff, tier_length_sum, fun ts => rfl, ?_, ?_⟩
  · intro ts
    simp [reviewDetails, needsReview]
  · intro t
    simp only [mkReviewDetail, truncDescription]
    split
    · simp only [List.length_append, List.length_take]
      have h3 : (['.', '.', '.'] : List Char).length = 3 := rfl
      omega
    · omega

/-- C7: for a matched record whose proposed `account_code` and
`account_name` both equal its current values, the update pass returns the
record *unchanged* (in particular `updated_by`/`updated_at` keep their
values — unset stays unset) and does not count it; when either value
differs, the record's category fields are overwritten, `updated_by` is set
to `"user"`, `updated_at` to the current time, and it is counted;
`updates_applied` is the number of changed records and the session-wide
confidence-tier summary is recomputed over the rewritten list. -/
theorem c7_update_noop :
    (∀ (updates : List UpdatePayload) (now : String) (cat : CatTrans)
        (u : UpdatePayload),
      updateMapLookup updates cat.transaction_id = some u →
      (proposedValues u cat).1 = cat.account_code →
      (proposedValues u cat).2.1 = cat.account_name →
      applyUpdateOne updates now cat = (cat, false)) ∧
    (∀ (updates : List UpdatePayload) (now : String) (cat : CatTrans)
        (u : UpdatePayload),
      updateMapLookup updates cat.transaction_id = some u →
      ((proposedValues u cat).1 ≠ cat.account_code ∨
        (proposedValues u cat).2.1 ≠ cat.account_name) →
      applyUpdateOne updates now cat =
        (appliedRecord u now cat (proposedValues u cat).1
          (proposedValues u cat).2.1 (proposedValues u cat).2.2.1
          (proposedValues u cat).2.2.2, true)) ∧
    (∀ (u : UpdatePayload) (now : String) (cat : CatTrans) (code name : String)
        (conf : ℚ) (reas : String),
      (appliedRecord u now cat code name conf reas).updated_by = some "user" ∧
      (appliedRecord u now cat code name conf reas).updated_at = some now ∧
      (appliedRecord u now cat code name conf reas).account_code = code ∧
      (appliedRecord u now cat code name conf reas).account_name = name ∧
      (appliedRecord u now cat code name conf reas).confidence = conf ∧
      (appliedRecord u now cat code name conf reas).reasoning = reas) ∧
    (∀ (cats : List CatTrans) (updates : List UpdatePayload) (now : String),
      (update_categorization_json cats updates now).1 =
        (cats.map (applyUpdateOne updates now)).map Prod.fst ∧
      (update_categorization_json cats updates now).2.1 =
        ((cats.map (applyUpdateOne updates now)).filter Prod.snd).length ∧
      (update_categorization_json cats updates now).2.2 =
        confSummary ((cats.map (applyUpdateOne updates now)).map Prod.fst)) := by
  refine ⟨?_, ?_, ?_, ?_⟩
  · intro updates now cat u hu h1 h2
    simp only [applyUpdateOne, hu]
    rw [if_neg]
    simp [h1, h2]
  · intro updates now cat u hu hne
    simp only [applyUpdateOne, hu]
    rw [if_pos]
    rcases hne with h | h
    · simp [h]
    · simp [h]
  · intro u now cat code name conf reas
    refine ⟨rfl, rfl, rfl, rfl, rfl, rfl⟩
  · intro cats updates now
    refine ⟨rfl, rfl, rfl⟩

/-- Witness for C7: a record `{code "5000", name "Office"}`; a same-values
update is a no-op, a different-code update overwrites and marks the
record. -/
theorem c7_witness :
    applyUpdateOne
        [{ transaction_id := "trans_0", account_code := some "5000",
           account_name := some "Office" }] "2024-01-01T00:00:00"
        { transaction_id := "trans_0", date := "d", description := "x",
          amount := 1, account_code := "5000", account_name := "Office",
          confidence := 1, reasoning := "r" } =
      ({ transaction_id := "trans_0", date := "d", description := "x",
         amount := 1, account_code := "5000", account_name := "Office",
         confidence := 1, reasoning := "r" }, false) ∧
    applyUpdateOne
        [{ transaction_id := "trans_0", account_code := some "6100",
           account_name := some "Rent" }] "2024-01-01T00:00:00"
        { transaction_id := "trans_0", date := "d", description := "x",
          amount := 1, account_code := "5000", account_name := "Office",
          confidence := 1, reasoning := "r" } =
      (appliedRecord
        { transaction_id := "trans_0", account_code := some "6100",
          account_name := some "Rent" } "2024-01-01T00:00:00"
        { transaction_id := "trans_0", date := "d", description := "x",
          amount := 1, account_code := "5000", account_name := "Office",
          confidence := 1, reasoning := "r" }
        (proposedValues
          { transaction_id := "trans_0", account_code := some "6100",
            account_name := some "Rent" }
          { transaction_id := "trans_0", date := "d", description := "x",
            amount := 1, account_code := "5000", account_name := "Office",
            confidence := 1, reasoning := "r" }).1
        (proposedValues
          { transaction_id := "trans_0", account_code := some "6100",
            account_name := some "Rent" }
          { transaction_id := "trans_0", date := "d", description := "x",
            amount := 1, account_code := "5000", account_name := "Office",
            confidence := 1, reasoning := "r" }).2.1
        (proposedValues
          { transaction_id := "trans_0", account_code := some "6100",
            account_name := some "Rent" }
          { transaction_id := "trans_0", date := "d", description := "x",
            amount := 1, account_code := "5000", account_name := "Office",
            confidence := 1, reasoning := "r" }).2.2.1
        (proposedValues
          { transaction_id := "trans_0", account_code := some "6100",
            account_name := some "Rent" }
          { transaction_id := "trans_0", date := "d", description := "x",
            amount := 1, account_code := "5000", account_name := "Office",
            confidence := 1, reasoning := "r" }).2.2.2, true) :=
  ⟨c7_update_noop.1
      [{ transaction_id := "trans_0", account_code := some "5000",
         account_name := some "Office" }] "2024-01-01T00:00:00"
      { transaction_id := "trans_0", date := "d", description := "x",
        amount := 1, account_code := "5000", account_name := "Office",
        confidence := 1, reasoning := "r" }
      { transaction_id := "trans_0", account_code := some "5000",
        account_name := some "Office" } (by rfl) (by rfl) (by rfl),
   c7_update_noop.2.1
      [{ transaction_id := "trans_0", account_code := some "6100",
         account_name := some "Rent" }] "2024-01-01T00:00:00"
      { transaction_id := "trans_0", date := "d", description := "x",
        amount := 1, account_code := "5000", account_name := "Office",
        confidence := 1, reasoning := "r" }
      { transaction_id := "trans_0", account_code := some "6100",
        account_name := some "Rent" } (by rfl)
      (Or.inl (by decide))⟩

/-- C9, counterexample to the claim as stated: the line `": Office"`
contains the separator `": "` but trimming its first part yields the empty
string — the claim says such a line is skipped, yet `read_chart_of_accounts`
creates the account `("", "Office")` from it and the empty code `""` lands
in `valid_codes`. -/
theorem c9_counterexample :
    read_chart_of_accounts [": Office".data] =
      [(([] : List Char), "Office".data)] ∧
    valid_codes_of (read_chart_of_accounts [": Office".data]) = [""] ∧
    "" ∈ valid_codes_of (read_chart_of_accounts [": Office".data]) := by
  refine ⟨by decide, by decide, by decide⟩

/-- C9, amended: a line whose stripped form is empty or starts with `#`, or
contains neither `": "` nor `" - "`, is skipped and contributes nothing;
every line containing a separator splits on the first occurrence of `": "`
(or, failing that, `" - "`) into exactly two parts and *always* contributes
one account whose code and name are those parts trimmed — even when a part
trims to empty, in which case the (possibly empty) code still enters
`valid_codes`; `valid_codes` consists of exactly the trimmed codes of the
parsed accounts. -/
theorem c9_chart_lines_amended :
    (∀ raw : List Char, (stripL raw).head? = some '#' →
      parseChartLine raw = none) ∧
    (∀ raw : List Char,
      splitAtFirstSep ": ".data (stripL raw) = none →
      splitAtFirstSep " - ".data (stripL raw) = none →
      parseChartLine raw = none) ∧
    (∀ (raw a b : List Char), (stripL raw).head? ≠ some '#' →
      splitAtFirstSep ": ".data (stripL raw) = some (a, b) →
      parseChartLine raw = some (stripL a, stripL b)) ∧
    (∀ (raw a b : List Char), (stripL raw).head? ≠ some '#' →
      splitAtFirstSep ": ".data (stripL raw) = none →
      splitAtFirstSep " - ".data (stripL raw) = some (a, b) →
      parseChartLine raw = some (stripL a, stripL b)) ∧
    (∀ lines : List (List Char),
      read_chart_of_accounts lines = lines.filterMap parseChartLine) ∧
    (∀ accounts : List (List Char × List Char),
      valid_codes_of accounts = accounts.map fun a => String.mk (stripL a.1)) := by
  refine ⟨?_, ?_, ?_, ?_, fun lines => rfl, ?_⟩
  · intro raw hhash
    have hne : stripL raw ≠ [] := by
      intro h
      rw [h] at hhash
      simp at hhash
    simp only [parseChartLine, hne, if_false]
    rw [if_pos hhash]
  · intro raw h1 h2
    by_cases hne : stripL raw = []
    · simp [parseChartLine, hne]
    · simp only [parseChartLine, hne, if_false, h1, h2]
      split
      · rfl
      · rfl
  · intro raw a b hhash hsplit
    have hne : stripL raw ≠ [] := by
      intro h
      rw [h] at hsplit
      simp [splitAtFirstSep] at hsplit
    simp only [parseChartLine, hne, if_false, hsplit]
    rw [if_neg hhash]
  · intro raw a b hhash h1 h2
    have hne : stripL raw ≠ [] := by
      intro h
      rw [h] at h2
      simp [splitAtFirstSep] at h2
    simp only [parseChartLine, hne, if_false, h1, h2]
    rw [if_neg hhash]
  · intro accounts
    simp only [valid_codes_of, preprocessCOA, List.map_map]
    rfl

/-- Witness for C9: the well-formed line `"5000: Sales"` parses to the
account `("5000", "Sales")`; the comment line `"# x"` and the line
`"no separator here"` parse to nothing. -/
theorem c9_witness :
    parseChartLine "5000: Sales".data =
      some (stripL "5000".data, stripL "Sales".data) ∧
    parseChartLine "# x".data = none ∧
    parseChartLine "no separator here".data = none :=
  ⟨by
      have h := c9_chart_lines_amended.2.2.1 "5000: Sales".data
        "5000".data "Sales".data (by decide) (by decide)
      simpa using h,
   c9_chart_lines_amended.1 "# x".data (by decide),
   c9_chart_lines_amended.2.1 "no separator here".data (by decide) (by decide)⟩

/-- C1, counterexample to the claim as stated: for the chart whose only
valid code is `"5000"`, an oracle answer `"9999"` is repaired to the
fallback `"6900"`, which is *not* a member of that chart's valid-code set —
the invariant fails whenever the chart does not itself define `"6900"`. -/
theorem c1_counterexample :
    (chunkRecords (some [{ account_code := some "9999" }])
        [{ transaction_id := "trans_0", date := "d", description := "x", amount := 1 }]
        ["5000"] [("5000", "Sales")]).map CatTrans.account_code = ["6900"] ∧
    "6900" ∉ ["5000"] := by
  constructor
  · decide
  · decide

/-- C1, amended: provided the chart defines the fallback code `"6900"`,
every record produced by the classification-and-repair path has an
`account_code` in `valid_codes` — including when the oracle returns a code
absent from the chart, an empty code, or a missing/non-string code; in
general the repaired code is always either a chart code or the literal
`"6900"`. -/
theorem c1_code_validity_amended :
    (∀ (parsed : Option (List OracleCat)) (chunk : List Transaction)
        (valid : List String) (c2n : List (String × String)),
      "6900" ∈ valid →
      ∀ r ∈ chunkRecords parsed chunk valid c2n, r.account_code ∈ valid) ∧
    (∀ (code : Option String) (valid : List String) (c2n : List (String × String)),
      (validate_account_code code valid c2n).account_code ∈ valid ∨
      (validate_account_code code valid c2n).account_code = "6900") := by
  refine ⟨?_, validate_mem_or_fallback⟩
  intro parsed chunk valid c2n h6900 r hr
  obtain ⟨t, cat, rfl⟩ := mem_zipWith_ex hr
  show (validate_account_code cat.account_code valid c2n).account_code ∈ valid
  rcases validate_mem_or_fallback cat.account_code valid c2n with h | h
  · exact h
  · rw [h]; exact h6900

/-- Witness for C1: a chart containing `"6900"`, an oracle code absent from
it; the produced record's code is in the chart. -/
theorem c1_witness :
    "6900" ∈ ["5000", "6900"] ∧
    ∀ r ∈ chunkRecords (some [{ account_code := some "9999" }])
        [{ transaction_id := "trans_0", date := "d", description := "x", amount := 1 }]
        ["5000", "6900"] [("5000", "Sales"), ("6900", "Other Expenses")],
      r.account_code ∈ ["5000", "6900"] :=
  ⟨by decide,
   c1_code_validity_amended.1 (some [{ account_code := some "9999" }])
     [{ transaction_id := "trans_0", date := "d", description := "x", amount := 1 }]
     ["5000", "6900"] [("5000", "Sales"), ("6900", "Other Expenses")] (by decide)⟩

/-- C4: For every transaction list of length N, the chunker produces exactly
⌈N/26⌉ chunks; every chunk holds at most 26 transactions and every chunk but
the last holds exactly 26; concatenating the chunks' transaction lists in
chunk order reproduces the original list; the k-th chunk (0-based k) has
1-based `chunk_number = k + 1`, `start_index = 26·k`,
`end_index = min (26·k + 26) N`, and carries exactly the slice
`ts[26·k : 26·k + 26]` of the original sequence. -/
theorem c4_chunker_spec (ts : List α) :
    (makeChunks ts).length = ts.length ⌈/⌉ CHUNK_SIZE ∧
    ((makeChunks ts).map Chunk.transactions).flatten = ts ∧
    ∀ k, k < (makeChunks ts).length →
      (makeChunks ts).get? k =
        some { chunk_number := k + 1
               transactions := (ts.drop (CHUNK_SIZE * k)).take CHUNK_SIZE
               start_index := CHUNK_SIZE * k
               end_index := min (CHUNK_SIZE * k + CHUNK_SIZE) ts.length } ∧
      ((ts.drop (CHUNK_SIZE * k)).take CHUNK_SIZE).length ≤ CHUNK_SIZE ∧
      (k + 1 < (makeChunks ts).length →
        ((ts.drop (CHUNK_SIZE * k)).take CHUNK_SIZE).length = CHUNK_SIZE) := by
  refine ⟨?_, makeChunksAux_flatten ts.length ts 0 1, ?_⟩
  · rw [makeChunks, makeChunksAux_length, Nat.ceilDiv_eq_add_pred_div]
  · intro k hk
    have hget := makeChunksAux_getElem ts.length ts 0 1 k hk
    have hlen := makeChunksAux_length ts.length ts 0 1
    refine ⟨?_, ?_, ?_⟩
    · rw [makeChunks, hget]
      simp [Nat.add_comm 1 k]
    · simp only [List.length_take, List.length_drop]
      omega
    · intro hk1
      rw [makeChunks] at hk1
      rw [hlen] at hk1
      simp only [List.length_take, List.length_drop, CHUNK_SIZE] at hk1 ⊢
      omega

/-- C2, counterexample to the claim as stated: for the empty input,
`process_journal_entries` does not produce an (empty, zero-sum) journal —
it rejects the input with the `"No categorized transactions found"` error
before the generation loop runs. -/
theorem c2_counterexample :
    process_journal_entries [] = Except.error JournalError.noTransactions ∧
    (process_journal_entries []).isOk = false := by
  constructor <;> rfl

/-- C2, amended: for every *nonempty* categorized-transaction list,
generation succeeds and the totals it retains satisfy `Σdebit = Σcredit`
exactly (hence `|Σdebit − Σcredit| ≤ 0.01`); the unbalanced branch — which
carries both totals in its error (`JournalError.unbalanced`) — is
unreachable; the empty input is rejected with a `noTransactions` error
before generation rather than yielding zero sums (though the generation
loop itself applied to `[]` does produce no entries, with both sums 0). -/
theorem c2_balance_amended :
    (∀ ts entries td tc,
      process_journal_entries ts = Except.ok (entries, td, tc) →
        td = tc ∧ |td - tc| ≤ 1/100 ∧
        td = totalDebits entries ∧ tc = totalCredits entries) ∧
    (∀ ts td tc,
      process_journal_entries ts ≠ Except.error (JournalError.unbalanced td tc)) ∧
    (∀ ts, ts ≠ [] →
      process_journal_entries ts =
        Except.ok (genEntries 1 ts, totalDebits (genEntries 1 ts),
          totalCredits (genEntries 1 ts))) ∧
    process_journal_entries [] = Except.error JournalError.noTransactions ∧
    genEntries 1 [] = [] ∧ totalDebits [] = 0 ∧ totalCredits [] = 0 := by
  have hok := process_ok_of_ne_nil
  refine ⟨?_, ?_, hok, rfl, rfl, rfl, rfl⟩
  · intro ts entries td tc hsucc
    rcases eq_or_ne ts [] with h | h
    · subst h
      simp [process_journal_entries] at hsucc
    · rw [hok ts h] at hsucc
      injection hsucc with h1
      injection h1 with ha hbc
      injection hbc with hb hc
      subst ha hb hc
      have hbal := genEntries_balance 1 ts
      refine ⟨hbal, ?_, rfl, rfl⟩
      rw [hbal, sub_self, abs_zero]
      norm_num
  · intro ts td tc
    rcases eq_or_ne ts [] with h | h
    · subst h; simp [process_journal_entries]
    · rw [hok ts h]; simp

/-- Witness for C2: instantiating the success clause at a concrete
one-transaction list. -/
theorem c2_witness :
    process_journal_entries
        [{ transaction_id := "t0", date := "2024-01-05",
           description := "PAYROLL RUN", amount := -1500,
           account_code := "5100", account_name := "Salaries and Wages Expense",
           confidence := 95/100, reasoning := "r" }] =
      Except.ok
        (genEntries 1
          [{ transaction_id := "t0", date := "2024-01-05",
             description := "PAYROLL RUN", amount := -1500,
             account_code := "5100", account_name := "Salaries and Wages Expense",
             confidence := 95/100, reasoning := "r" }],
         totalDebits (genEntries 1
          [{ transaction_id := "t0", date := "2024-01-05",
             description := "PAYROLL RUN", amount := -1500,
             account_code := "5100", account_name := "Salaries and Wages Expense",
             confidence := 95/100, reasoning := "r" }]),
         totalCredits (genEntries 1
          [{ transaction_id := "t0", date := "2024-01-05",
             description := "PAYROLL RUN", amount := -1500,
             account_code := "5100", account_name := "Salaries and Wages Expense",
             confidence := 95/100, reasoning := "r" }])) :=
  c2_balance_amended.2.2.1 _ (by decide)

/-- C3: the generation loop emits, per transaction with non-empty
`account_code` and non-zero `amount`, exactly one entry pair sharing one
`entry_id`; for `amount > 0` a debit of `amount` on the fixed cash account
(`"1000"`/`"Cash"`) plus a credit of `amount` on the transaction's account;
for `amount < 0` a credit of `|amount|` on cash plus a debit of `|amount|`
on the transaction's account; transactions with empty `account_code` or
zero `amount` are filtered out and produce no entries; the `entry_id`s are
the consecutive numbers `1, 2, …` over contributing transactions (one
increment per contributing transaction, not per entry); and the entries a
successful `process_journal_entries` run returns are exactly these. -/
theorem c3_journal_pair_shape :
    (∀ t : CatTrans, (contributes t = true) ↔ (t.account_code ≠ "" ∧ t.amount ≠ 0)) ∧
    (∀ ts : List CatTrans,
      genEntries 1 ts =
        (List.zipWith entryPair (List.range' 1 (ts.filter contributes).length)
          (ts.filter contributes)).flatten) ∧
    (∀ (eid : Nat) (t : CatTrans), 0 < t.amount →
      entryPair eid t =
        [ { entry_id := eid, transaction_id := t.transaction_id, date := t.date
            account_code := "1000", account_name := "Cash"
            description := t.description
            debit := t.amount, credit := 0, entry_type := "debit" },
          { entry_id := eid, transaction_id := t.transaction_id, date := t.date
            account_code := t.account_code, account_name := t.account_name
            description := t.description
            debit := 0, credit := t.amount, entry_type := "credit" } ]) ∧
    (∀ (eid : Nat) (t : CatTrans), t.amount < 0 →
      entryPair eid t =
        [ { entry_id := eid, transaction_id := t.transaction_id, date := t.date
            account_code := "1000", account_name := "Cash"
            description := t.description
            debit := 0, credit := |t.amount|, entry_type := "credit" },
          { entry_id := eid, transaction_id := t.transaction_id, date := t.date
            account_code := t.account_code, account_name := t.account_name
            description := t.description
            debit := |t.amount|, credit := 0, entry_type := "debit" } ]) ∧
    (∀ ts entries td tc,
      process_journal_entries ts = Except.ok (entries, td, tc) →
        entries = genEntries 1 ts) := by
  refine ⟨?_, fun ts => genEntries_structure 1 ts, ?_, ?_, ?_⟩
  · intro t
    simp [contributes]
  · intro eid t h
    simp [entryPair, h]
  · intro eid t h
    have hng : ¬ t.amount > 0 := by exact not_lt_of_gt h
    simp [entryPair, hng]
  · intro ts entries td tc hsucc
    rcases eq_or_ne ts [] with h | h
    · subst h
      simp [process_journal_entries] at hsucc
    · rw [process_ok_of_ne_nil ts h] at hsucc
      injection hsucc with h1
      injection h1 with ha hbc
      exact ha.symm

/-- Witness for C3: the pair shapes at a concrete positive and a concrete
negative transaction, and the success clause at a one-element list. -/
theorem c3_witness :
    entryPair 1
        { transaction_id := "t1", date := "2024-01-06",
          description := "Client Payment", amount := 2000,
          account_code := "4000", account_name := "Service Revenue",
          confidence := 9/10, reasoning := "r" } =
      [ { entry_id := 1, transaction_id := "t1", date := "2024-01-06"
          account_code := "1000", account_name := "Cash"
          description := "Client Payment"
          debit := 2000, credit := 0, entry_type := "debit" },
        { entry_id := 1, transaction_id := "t1", date := "2024-01-06"
          account_code := "4000", account_name := "Service Revenue"
          description := "Client Payment"
          debit := 0, credit := 2000, entry_type := "credit" } ] := by
  have h := c3_journal_pair_shape.2.2.1 1
    { transaction_id := "t1", date := "2024-01-06",
      description := "Client Payment", amount := 2000,
      account_code := "4000", account_name := "Service Revenue",
      confidence := 9/10, reasoning := "r" } (by norm_num)
  simpa using h

/-- Witness for C4 at the one-element list `[0]` and chunk index 0. -/
theorem c4_witness :
    (makeChunks ([0] : List Nat)).get? 0 =
      some { chunk_number := 1
             transactions := (([0] : List Nat).drop (CHUNK_SIZE * 0)).take CHUNK_SIZE
             start_index := CHUNK_SIZE * 0
             end_index := min (CHUNK_SIZE * 0 + CHUNK_SIZE) ([0] : List Nat).length } := by
  have hlen : (makeChunks ([0] : List Nat)).length = 1 := by
    rw [makeChunks, makeChunksAux_length]
    rfl
  exact ((c4_chunker_spec [0]).2.2 0 (by rw [hlen]; omega)).1

end AccAgent
